import Mathlib

/-!
Shallow embedding of `include/contracts.h` (single-header design-by-contract
facility for C/C++) and verification of its conditional-compilation semantics.

The header's entire behavior is a pure function of three preprocessor facts at
the point of inclusion: whether `NDEBUG` is defined, whether `EXDEBUG` is
defined, and whether the host language is C++ (`__cplusplus`).  We embed:

* the configuration (`Config`),
* the expansion selected for `CONTRACTS_ASSERT` (lines 178-197 of the header)
  and for `if_else_debug` (lines 187 / 191),
* the runtime semantics of each expansion over an abstract program state `σ`,
  with conditions modelled as stateful, fallible boolean computations so that
  "the condition is not evaluated" is expressible,
* the exception machinery (`ContractViolated : public std::logic_error`,
  catch-matching with inheritance) used by `EXDEBUG` mode and by
  `assert_exception` (lines 140-156),
* `__contracts_assert_failed` (lines 161-168) and its `fprintf` format,
* the re-inclusion block (lines 171-197) that `#undef`s and redefines the
  configuration-dependent macros.
-/

namespace Contracts

/-- The preprocessor configuration visible at an inclusion point of
`contracts.h`: whether `NDEBUG` is defined, whether `EXDEBUG` is defined,
and whether the translation unit is C++ (`__cplusplus` defined). -/
structure Config where
  ndebug : Bool
  exdebug : Bool
  cplusplus : Bool
deriving DecidableEq, Repr

/-- C++ exception kinds relevant to the header: `ContractViolated`
(contracts.h lines 102-112), its base class `std::logic_error`, and any
other exception type, identified by name. -/
inductive ExnKind where
  | contractViolated
  | logicError
  | other (name : String)
deriving DecidableEq, Repr

/-- C++ catch-matching: a handler `catch (h)` catches a thrown exception of
dynamic kind `t` iff `t` is `h` or publicly derives from `h`.  The one
inheritance edge in the header is `class ContractViolated : public
std::logic_error` (line 102). -/
def ExnKind.catches (h t : ExnKind) : Bool :=
  match h, t with
  | .contractViolated, .contractViolated => true
  | .logicError, .contractViolated => true
  | .logicError, .logicError => true
  | .other n, .other m => n == m
  | _, _ => false

/-- A C++ exception value: its dynamic kind and its `what()` message. -/
structure Exn where
  kind : ExnKind
  what : String
deriving DecidableEq, Repr

/-- `ContractViolated(what)` (contracts.h lines 102-112): constructs the
exception thrown by `CONTRACTS_ASSERT` in `EXDEBUG` mode; its message is the
failed condition's source text. -/
def ContractViolated (what : String) : Exn :=
  { kind := ExnKind.contractViolated, what := what }

/-- Result of evaluating a C/C++ boolean expression: it may yield a boolean
together with the post-state (the expression may have side effects), or it
may error (crash / undefined behavior) if evaluated. -/
inductive EvalResult (σ : Type) where
  | val (b : Bool) (s : σ)
  | err
deriving DecidableEq, Repr

/-- A condition expression, as passed to `requires`/`ensures`: a stateful,
fallible boolean computation. -/
def Cond (σ : Type) : Type := σ → EvalResult σ

/-- Result of executing a C++ statement sequence, as passed to
`assert_exception`: it completes normally or raises an exception, in either
case with a post-state recording its side effects up to that point. -/
inductive CodeResult (σ : Type) where
  | normal (s : σ)
  | raised (e : Exn) (s : σ)
deriving DecidableEq, Repr

/-- A code fragment, as passed to `assert_exception`. -/
def Code (σ : Type) : Type := σ → CodeResult σ

/-- Observable outcome of executing an expanded contract macro:
normal completion, abnormal process termination via `abort()` with the text
written to `stderr`, an exception propagating to the enclosing scope, or a
crash of the evaluated expression itself. -/
inductive Outcome (σ : Type) where
  | ok (s : σ)
  | aborted (stderrText : String) (s : σ)
  | thrown (e : Exn) (s : σ)
  | crashed
deriving DecidableEq, Repr

/-- An outcome triggered contract-failure handling: the process was aborted
or a contract exception propagated. -/
def Outcome.isFailure {σ : Type} : Outcome σ → Bool
  | .ok _ => false
  | .aborted _ _ => true
  | .thrown _ _ => true
  | .crashed => false

/-- The message `__contracts_assert_failed` writes to `stderr`
(contracts.h lines 165-166): `fprintf(stderr, "*** assertion failed at
%s:%lu\n%s\n", file, (unsigned long) line, msg)`. -/
def assertFailedMessage (file : String) (line : Nat) (msg : String) : String :=
  "*** assertion failed at " ++ file ++ ":" ++ toString line ++ "\n" ++ msg ++ "\n"

/-- `__contracts_assert_failed(file, line, msg)` (contracts.h lines 161-168):
prints the fixed-format message to `stderr`, then calls `abort()` —
abnormal termination, no exception. -/
def __contracts_assert_failed {σ : Type} (file : String) (line : Nat)
    (msg : String) (s : σ) : Outcome σ :=
  Outcome.aborted (assertFailedMessage file line msg) s

/-- The three possible expansions of `CONTRACTS_ASSERT` (contracts.h lines
178-197): `(void) 0` under `NDEBUG` (line 189); `((expr) ? (void) 0 : throw
ContractViolated(#expr))` under `EXDEBUG` in C++ (line 193); the standard
`assert(expr)` otherwise (line 195). -/
inductive AssertMode where
  | voidZero
  | throwCV
  | stdAssert
deriving DecidableEq, Repr

/-- The `#if` dispatch of contracts.h lines 178-197: which expansion of
`CONTRACTS_ASSERT` is defined for a given configuration. -/
def contractsAssertMode (cfg : Config) : AssertMode :=
  if cfg.ndebug then AssertMode.voidZero
  else if cfg.exdebug && cfg.cplusplus then AssertMode.throwCV
  else AssertMode.stdAssert

/-- Semantics of one `CONTRACTS_ASSERT` expansion applied to a condition with
source text `text` at source location `file:line`, starting in state `s`.
The standard `assert` facility (from `<cassert>` / `<assert.h>`) is not part
of this repository; its diagnostic text is implementation-defined, so it is a
parameter `diag : file → line → expression text → stderr text`; on a false
condition it writes `diag` to `stderr` and calls `abort()`. -/
def AssertMode.run {σ : Type} (m : AssertMode)
    (diag : String → Nat → String → String)
    (file : String) (line : Nat) (text : String)
    (c : Cond σ) (s : σ) : Outcome σ :=
  match m with
  | .voidZero => Outcome.ok s
  | .throwCV =>
    match c s with
    | .val true s' => Outcome.ok s'
    | .val false s' => Outcome.thrown (ContractViolated text) s'
    | .err => Outcome.crashed
  | .stdAssert =>
    match c s with
    | .val true s' => Outcome.ok s'
    | .val false s' => Outcome.aborted (diag file line text) s'
    | .err => Outcome.crashed

/-- `CONTRACTS_ASSERT(expr)` under configuration `cfg`: the expansion selected
by lines 178-197, executed. -/
def CONTRACTS_ASSERT {σ : Type} (cfg : Config)
    (diag : String → Nat → String → String)
    (file : String) (line : Nat) (text : String)
    (c : Cond σ) (s : σ) : Outcome σ :=
  (contractsAssertMode cfg).run diag file line text c s

/-- `#define requires(exp) (CONTRACTS_ASSERT(exp))` (contracts.h line 83). -/
def requires {σ : Type} (cfg : Config) (diag : String → Nat → String → String)
    (file : String) (line : Nat) (text : String)
    (c : Cond σ) (s : σ) : Outcome σ :=
  CONTRACTS_ASSERT cfg diag file line text c s

/-- `#define ensures(exp) (CONTRACTS_ASSERT(exp))` (contracts.h line 92). -/
def ensures {σ : Type} (cfg : Config) (diag : String → Nat → String → String)
    (file : String) (line : Nat) (text : String)
    (c : Cond σ) (s : σ) : Outcome σ :=
  CONTRACTS_ASSERT cfg diag file line text c s

/-- A C++ object as seen by `validate`: it exposes an `isValid()` method,
modelled as a stateful, fallible boolean computation (calling it may error
for an object the claim describes as "one whose evaluation would error"). -/
structure CppObject (σ : Type) where
  isValid : Cond σ

/-- `#define validate(object) (CONTRACTS_ASSERT((object).isValid()))`
(contracts.h line 127, C++ only): the stringified condition passed to
`CONTRACTS_ASSERT` is `(objText).isValid()` where `objText` is the literal
argument text. -/
def validate {σ : Type} (cfg : Config) (diag : String → Nat → String → String)
    (file : String) (line : Nat) (objText : String)
    (obj : CppObject σ) (s : σ) : Outcome σ :=
  CONTRACTS_ASSERT cfg diag file line ("(" ++ objText ++ ").isValid()")
    obj.isValid s

/-- `if_else_debug(code_if, code_else)` (contracts.h lines 187 and 191):
expands to `code_else` when `NDEBUG` is defined, to `code_if` otherwise —
a compile-time selection between the two fragments. -/
def if_else_debug {α : Type} (cfg : Config) (code_if code_else : α) : α :=
  if cfg.ndebug then code_else else code_if

/-- `#define if_debug(code) if_else_debug(code, (void) 0)`
(contracts.h line 68); `voidZero` is the semantics of `(void) 0`. -/
def if_debug {α : Type} (cfg : Config) (code voidZero : α) : α :=
  if_else_debug cfg code voidZero

/-- The failure message of `assert_exception` when `code` raises no exception
(contracts.h lines 146-147): `"No exceptions has been thrown (expected: “"
#ex "”)."` where `#ex` is the literal text of the expected exception type. -/
def noExnMessage (exText : String) : String :=
  "No exceptions has been thrown (expected: “" ++ exText ++ "”)."

/-- The failure message of `assert_exception` when `code` raises an exception
not matching `ex` (contracts.h lines 152-153). -/
def unexpectedExnMessage (exText : String) : String :=
  "An unexpected exception has been thrown (expected: “" ++ exText ++ "”)."

/-- `assert_exception(code, ex)` (contracts.h lines 140-156, C++ only):
`if_debug( if (true) try { code; __contracts_assert_failed(..., noExn...); }
catch (ex) {} catch (...) { __contracts_assert_failed(..., unexpected...); }
else ((void) 0) )`.  Under `NDEBUG` the whole construct is `(void) 0` and
`code` is not executed.  Otherwise `code` runs: normal completion reaches the
`__contracts_assert_failed` call inside the `try` (which aborts without
throwing); an exception caught by `catch (ex)` is swallowed; any other
exception reaches `catch (...)`, which aborts.  `exKind` is the exception
type `ex` and `exText` its literal source text `#ex`. -/
def assert_exception {σ : Type} (cfg : Config) (file : String) (line : Nat)
    (code : Code σ) (exKind : ExnKind) (exText : String) (s : σ) : Outcome σ :=
  if_else_debug cfg
    (match code s with
     | .normal s' =>
       __contracts_assert_failed file line (noExnMessage exText) s'
     | .raised e s' =>
       if exKind.catches e.kind then Outcome.ok s'
       else __contracts_assert_failed file line (unexpectedExnMessage exText) s')
    (Outcome.ok s)

/-- The configuration-dependent definitions installed by one pass over the
re-inclusion block (contracts.h lines 171-197): which branch `if_else_debug`
selects, and which expansion `CONTRACTS_ASSERT` has. -/
structure PPDefs where
  selectsIf : Bool
  assertMode : AssertMode
deriving DecidableEq, Repr

/-- One pass of the preprocessor over contracts.h lines 171-197 with the
flags `cfg` visible at that inclusion point, starting from the definitions
`prev` left by any earlier inclusion (`none` on first inclusion).  Lines
173-176 `#undef` both macros if `if_else_debug` is defined; lines 178-197
then define both from the current flags alone. -/
def processReinclusionBlock (cfg : Config) (prev : Option PPDefs) :
    Option PPDefs :=
  let afterUndef : Option PPDefs :=
    match prev with
    | some _ => none
    | none => none
  match afterUndef with
  | _ => some { selectsIf := !cfg.ndebug, assertMode := contractsAssertMode cfg }

/-- Interpretation of an installed `if_else_debug` definition. -/
def PPDefs.runIfElseDebug {α : Type} (d : PPDefs) (code_if code_else : α) : α :=
  if d.selectsIf then code_if else code_else

/-- Modelled from the spec: the standard `assert` facility (from `<cassert>` /
`<assert.h>`, not part of this repository) writes, on a false condition,
"the file, line, and failing expression text to the diagnostic stream".
A diagnostic function conforms when its output contains the source file
name, the (decimal) line number, and the expression text. -/
def ConformingDiag (diag : String → Nat → String → String) : Prop :=
  ∀ f l t, f.data <:+: (diag f l t).data ∧
    (toString l).data <:+: (diag f l t).data ∧
    t.data <:+: (diag f l t).data

/-- A concrete conforming standard-assert diagnostic (the classic BSD/MSVC
wording), used as a sample implementation in concrete instantiations. -/
def diagBSD (f : String) (l : Nat) (t : String) : String :=
  "Assertion failed: " ++ t ++ ", file " ++ f ++ ", line " ++ toString l ++ "\n"

theorem diagBSD_conforming : ConformingDiag diagBSD := by
  intro f l t
  refine ⟨⟨("Assertion failed: " ++ t ++ ", file ").data,
           (", line " ++ toString l ++ "\n").data, ?_⟩,
          ⟨("Assertion failed: " ++ t ++ ", file " ++ f ++ ", line ").data,
           ("\n").data, ?_⟩,
          ⟨("Assertion failed: ").data,
           (", file " ++ f ++ ", line " ++ toString l ++ "\n").data, ?_⟩⟩ <;>
    simp [diagBSD, String.data_append, List.append_assoc]

/-- A condition whose evaluation errors (crashes) if it is ever attempted. -/
def condErr : Cond Unit := fun _ => EvalResult.err

/-- A side-effect-free condition that evaluates to `false`. -/
def condFalse : Cond Unit := fun s => EvalResult.val false s

/-- A side-effect-free condition that evaluates to `true`. -/
def condTrue : Cond Unit := fun s => EvalResult.val true s

/-- A code fragment that completes normally, raising no exception. -/
def codeNormal : Code Unit := fun s => CodeResult.normal s

/-- A code fragment that raises a `std::out_of_range` exception. -/
def codeRaisesOOR : Code Unit := fun s =>
  CodeResult.raised { kind := ExnKind.other "std::out_of_range", what := "oor" } s

/-- C1: when `NDEBUG` is set, `requires(C)`, `ensures(C)` and `validate(obj)`
produce no observable effect for every condition `C` and every object `obj`
(including ones whose evaluation would error): `C` is never evaluated and
`obj.isValid()` is never called — the outcome is normal completion in the
unchanged state, whatever the condition or object computations do. -/
theorem C1_ndebug_no_effect {σ : Type} (cfg : Config) (h : cfg.ndebug = true)
    (diag : String → Nat → String → String) (file : String) (line : Nat)
    (text : String) (c : Cond σ) (objText : String) (obj : CppObject σ)
    (s : σ) :
    requires cfg diag file line text c s = Outcome.ok s ∧
    ensures cfg diag file line text c s = Outcome.ok s ∧
    validate cfg diag file line objText obj s = Outcome.ok s := by
  refine ⟨?_, ?_, ?_⟩ <;>
    simp [requires, ensures, validate, CONTRACTS_ASSERT, contractsAssertMode,
      h, AssertMode.run]

/-- Witness for C1 at a concrete input: condition and validity check that
would crash if evaluated, yet the `NDEBUG` expansion completes normally. -/
theorem C1_ndebug_no_effect_witness :
    requires ⟨true, false, true⟩ diagBSD "f.c" 5 "x > 0" condErr () =
      Outcome.ok () ∧
    ensures ⟨true, false, true⟩ diagBSD "f.c" 5 "x > 0" condErr () =
      Outcome.ok () ∧
    validate ⟨true, false, true⟩ diagBSD "f.c" 5 "obj" ⟨condErr⟩ () =
      Outcome.ok () :=
  C1_ndebug_no_effect ⟨true, false, true⟩ rfl diagBSD "f.c" 5 "x > 0" condErr
    "obj" ⟨condErr⟩ ()

/-- C2 counterexample: with `NDEBUG` unset and `EXDEBUG` unset,
`CONTRACTS_ASSERT` expands to the standard `assert(expr)` (contracts.h line
195), not to a call of `__contracts_assert_failed`; under a conforming
standard-assert implementation (the BSD wording) the `stderr` text on a false
condition is the implementation's diagnostic, which differs from the claimed
fixed format `*** assertion failed at <file>:<line>\n<message>\n`. -/
theorem C2_fixed_format_counterexample :
    contractsAssertMode ⟨false, false, true⟩ = AssertMode.stdAssert ∧
    requires ⟨false, false, true⟩ diagBSD "f.c" 5 "x > 0" condFalse () =
      Outcome.aborted (diagBSD "f.c" 5 "x > 0") () ∧
    diagBSD "f.c" 5 "x > 0" ≠ assertFailedMessage "f.c" 5 "x > 0" :=
  ⟨rfl, rfl, by decide⟩

/-- C2 (amended): for every false condition `C`, with `NDEBUG` unset and
`EXDEBUG` unset, the contract check terminates the process abnormally by the
standard `assert` facility, writing that facility's implementation-defined
diagnostic for (file, line, text of `C`) to `stderr`; for every conforming
implementation this diagnostic contains the file name, the line number and
the literal text of `C` — but it is not the fixed
`*** assertion failed at <file>:<line>` format, which this header produces
only in `__contracts_assert_failed`. -/
theorem C2_default_failure_aborts {σ : Type} (cfg : Config)
    (h1 : cfg.ndebug = false) (h2 : cfg.exdebug = false)
    (diag : String → Nat → String → String) (hdiag : ConformingDiag diag)
    (file : String) (line : Nat) (text : String) (c : Cond σ) (s s' : σ)
    (hc : c s = EvalResult.val false s') :
    requires cfg diag file line text c s =
      Outcome.aborted (diag file line text) s' ∧
    (requires cfg diag file line text c s).isFailure = true ∧
    file.data <:+: (diag file line text).data ∧
    (toString line).data <:+: (diag file line text).data ∧
    text.data <:+: (diag file line text).data := by
  have hmode : contractsAssertMode cfg = AssertMode.stdAssert := by
    simp [contractsAssertMode, h1, h2]
  have hrun : requires cfg diag file line text c s =
      Outcome.aborted (diag file line text) s' := by
    simp [requires, CONTRACTS_ASSERT, hmode, AssertMode.run, hc]
  exact ⟨hrun, by simp [hrun, Outcome.isFailure],
    (hdiag file line text).1, (hdiag file line text).2.1,
    (hdiag file line text).2.2⟩

/-- Witness for C2 (amended) at a concrete input, with the BSD diagnostic as
the conforming standard-assert implementation. -/
theorem C2_default_failure_aborts_witness :
    requires ⟨false, false, true⟩ diagBSD "f.c" 5 "x > 0" condFalse () =
      Outcome.aborted (diagBSD "f.c" 5 "x > 0") () ∧
    (requires ⟨false, false, true⟩ diagBSD "f.c" 5 "x > 0" condFalse
      ()).isFailure = true ∧
    ("f.c").data <:+: (diagBSD "f.c" 5 "x > 0").data ∧
    (toString 5).data <:+: (diagBSD "f.c" 5 "x > 0").data ∧
    ("x > 0").data <:+: (diagBSD "f.c" 5 "x > 0").data :=
  C2_default_failure_aborts ⟨false, false, true⟩ rfl rfl diagBSD
    diagBSD_conforming "f.c" 5 "x > 0" condFalse () () rfl

/-- C3: for every false condition `C`, with `NDEBUG` unset and `EXDEBUG` set
in C++, `requires(C)`/`ensures(C)`/`validate` throw a `ContractViolated`
exception whose message equals the literal text of `C` (for `validate`, the
text `(obj).isValid()` of the stringified check); the process is not
terminated — the exception propagates to the enclosing scope — and the
exception is caught both by a `ContractViolated` handler and by any
`std::logic_error` handler, `ContractViolated` deriving from it. -/
theorem C3_exdebug_throws {σ : Type} (cfg : Config)
    (h1 : cfg.ndebug = false) (h2 : cfg.exdebug = true)
    (h3 : cfg.cplusplus = true) (diag : String → Nat → String → String)
    (file : String) (line : Nat) (text : String) (c : Cond σ) (s s' : σ)
    (hc : c s = EvalResult.val false s') (objText : String)
    (obj : CppObject σ) (t t' : σ)
    (hobj : obj.isValid t = EvalResult.val false t') :
    requires cfg diag file line text c s =
      Outcome.thrown (ContractViolated text) s' ∧
    ensures cfg diag file line text c s =
      Outcome.thrown (ContractViolated text) s' ∧
    validate cfg diag file line objText obj t =
      Outcome.thrown (ContractViolated ("(" ++ objText ++ ").isValid()")) t' ∧
    (ContractViolated text).what = text ∧
    ExnKind.catches ExnKind.contractViolated ExnKind.contractViolated = true ∧
    ExnKind.catches ExnKind.logicError ExnKind.contractViolated = true ∧
    (∀ msg u, requires cfg diag file line text c s ≠ Outcome.aborted msg u) := by
  have hmode : contractsAssertMode cfg = AssertMode.throwCV := by
    simp [contractsAssertMode, h1, h2, h3]
  have hreq : requires cfg diag file line text c s =
      Outcome.thrown (ContractViolated text) s' := by
    simp [requires, CONTRACTS_ASSERT, hmode, AssertMode.run, hc]
  refine ⟨hreq, ?_, ?_, rfl, rfl, rfl, ?_⟩
  · simp [ensures, CONTRACTS_ASSERT, hmode, AssertMode.run, hc]
  · simp [validate, CONTRACTS_ASSERT, hmode, AssertMode.run, hobj]
  · intro msg u
    simp [hreq]

/-- Witness for C3 at a concrete input. -/
theorem C3_exdebug_throws_witness :
    requires ⟨false, true, true⟩ diagBSD "f.c" 5 "x > 0" condFalse () =
      Outcome.thrown (ContractViolated "x > 0") () ∧
    ensures ⟨false, true, true⟩ diagBSD "f.c" 5 "x > 0" condFalse () =
      Outcome.thrown (ContractViolated "x > 0") () ∧
    validate ⟨false, true, true⟩ diagBSD "f.c" 5 "obj" ⟨condFalse⟩ () =
      Outcome.thrown (ContractViolated "(obj).isValid()") () ∧
    (ContractViolated "x > 0").what = "x > 0" ∧
    ExnKind.catches ExnKind.contractViolated ExnKind.contractViolated = true ∧
    ExnKind.catches ExnKind.logicError ExnKind.contractViolated = true ∧
    (∀ msg u, requires ⟨false, true, true⟩ diagBSD "f.c" 5 "x > 0" condFalse ()
      ≠ Outcome.aborted msg u) :=
  C3_exdebug_throws ⟨false, true, true⟩ rfl rfl rfl diagBSD "f.c" 5 "x > 0"
    condFalse () () rfl "obj" ⟨condFalse⟩ () () rfl

/-- C4 counterexample: with debugging active, when `code` raises no exception,
`assert_exception` aborts with the message `No exceptions has been thrown
(expected: “K”).` — which is not the claimed text `No exception has been
thrown (expected: K).` (the code says "exceptions", plural, and wraps the
expected kind in typographic quotes); likewise the unexpected-exception
message wraps `K` in typographic quotes, unlike the claimed text. -/
theorem C4_message_text_counterexample :
    assert_exception ⟨false, false, true⟩ "f.c" 9 codeNormal
      (ExnKind.other "std::out_of_range") "std::out_of_range" () =
      Outcome.aborted
        (assertFailedMessage "f.c" 9 (noExnMessage "std::out_of_range")) () ∧
    noExnMessage "std::out_of_range" ≠
      "No exception has been thrown (expected: std::out_of_range)." ∧
    unexpectedExnMessage "std::out_of_range" ≠
      "An unexpected exception has been thrown (expected: std::out_of_range)." :=
  ⟨rfl, by decide, by decide⟩

/-- C4 (amended): with debugging active in C++ (`NDEBUG` unset),
`assert_exception(code, K)` executes `code` and then: if `code` raises no
exception it aborts via `__contracts_assert_failed` with the message
`No exceptions has been thrown (expected: “K”).`; if `code` raises an
exception not caught by a `catch (K)` handler it aborts with the message
`An unexpected exception has been thrown (expected: “K”).`; if `code` raises
an exception matching `K` it completes normally in the state `code` reached
at the raise point — no observable effect beyond `code`'s side effects. -/
theorem C4_assert_exception_outcomes {σ : Type} (cfg : Config)
    (h : cfg.ndebug = false) (file : String) (line : Nat) (code : Code σ)
    (exKind : ExnKind) (exText : String) (s : σ) :
    (∀ s', code s = CodeResult.normal s' →
      assert_exception cfg file line code exKind exText s =
        Outcome.aborted (assertFailedMessage file line (noExnMessage exText))
          s') ∧
    (∀ e s', code s = CodeResult.raised e s' →
      exKind.catches e.kind = false →
      assert_exception cfg file line code exKind exText s =
        Outcome.aborted
          (assertFailedMessage file line (unexpectedExnMessage exText)) s') ∧
    (∀ e s', code s = CodeResult.raised e s' →
      exKind.catches e.kind = true →
      assert_exception cfg file line code exKind exText s =
        Outcome.ok s') := by
  refine ⟨?_, ?_, ?_⟩
  · intro s' hcode
    simp [assert_exception, if_else_debug, h, hcode, __contracts_assert_failed]
  · intro e s' hcode hmatch
    simp [assert_exception, if_else_debug, h, hcode, hmatch,
      __contracts_assert_failed]
  · intro e s' hcode hmatch
    simp [assert_exception, if_else_debug, h, hcode, hmatch]

/-- Witness for C4 (amended) at concrete inputs: a normally-completing code
fragment aborts with the no-exception message; a fragment raising
`std::out_of_range` succeeds when that kind is expected and aborts with the
unexpected-exception message when `std::domain_error` is expected. -/
theorem C4_assert_exception_outcomes_witness :
    assert_exception ⟨false, false, true⟩ "f.c" 9 codeNormal
      (ExnKind.other "std::out_of_range") "std::out_of_range" () =
      Outcome.aborted
        (assertFailedMessage "f.c" 9 (noExnMessage "std::out_of_range")) () ∧
    assert_exception ⟨false, false, true⟩ "f.c" 9 codeRaisesOOR
      (ExnKind.other "std::domain_error") "std::domain_error" () =
      Outcome.aborted
        (assertFailedMessage "f.c" 9 (unexpectedExnMessage "std::domain_error"))
        () ∧
    assert_exception ⟨false, false, true⟩ "f.c" 9 codeRaisesOOR
      (ExnKind.other "std::out_of_range") "std::out_of_range" () =
      Outcome.ok () := by
  refine ⟨(C4_assert_exception_outcomes ⟨false, false, true⟩ rfl "f.c" 9
      codeNormal (ExnKind.other "std::out_of_range") "std::out_of_range"
      ()).1 () rfl,
    (C4_assert_exception_outcomes ⟨false, false, true⟩ rfl "f.c" 9
      codeRaisesOOR (ExnKind.other "std::domain_error") "std::domain_error"
      ()).2.1 { kind := ExnKind.other "std::out_of_range", what := "oor" } ()
      rfl (by decide),
    (C4_assert_exception_outcomes ⟨false, false, true⟩ rfl "f.c" 9
      codeRaisesOOR (ExnKind.other "std::out_of_range") "std::out_of_range"
      ()).2.2 { kind := ExnKind.other "std::out_of_range", what := "oor" } ()
      rfl (by decide)⟩

/-- C5: when `NDEBUG` is unset, `requires(condition)`/`ensures(condition)`
evaluate the condition — its side effects land in the outcome's state — and
trigger failure handling exactly when it is false; when `NDEBUG` is set the
condition is not evaluated at all and the check completes normally in the
unchanged state. -/
theorem C5_debug_evaluates {σ : Type} (cfg : Config)
    (diag : String → Nat → String → String) (file : String) (line : Nat)
    (text : String) (c : Cond σ) (s : σ) :
    (cfg.ndebug = true →
      requires cfg diag file line text c s = Outcome.ok s ∧
      ensures cfg diag file line text c s = Outcome.ok s) ∧
    (cfg.ndebug = false → ∀ s',
      (c s = EvalResult.val true s' →
        requires cfg diag file line text c s = Outcome.ok s' ∧
        ensures cfg diag file line text c s = Outcome.ok s') ∧
      (c s = EvalResult.val false s' →
        (requires cfg diag file line text c s).isFailure = true ∧
        (ensures cfg diag file line text c s).isFailure = true)) := by
  constructor
  · intro h
    constructor <;>
      simp [requires, ensures, CONTRACTS_ASSERT, contractsAssertMode, h,
        AssertMode.run]
  · intro h s'
    have hmode : contractsAssertMode cfg = AssertMode.throwCV ∨
        contractsAssertMode cfg = AssertMode.stdAssert := by
      unfold contractsAssertMode
      rw [h]
      cases hec : (cfg.exdebug && cfg.cplusplus) <;> simp [hec]
    constructor <;> intro hc
    · rcases hmode with hm | hm <;> constructor <;>
        simp [requires, ensures, CONTRACTS_ASSERT, hm, AssertMode.run, hc]
    · rcases hmode with hm | hm <;> constructor <;>
        simp [requires, ensures, CONTRACTS_ASSERT, hm, AssertMode.run, hc,
          Outcome.isFailure]

/-- Witness for C5 at concrete inputs, in both flag states of `NDEBUG`. -/
theorem C5_debug_evaluates_witness :
    requires ⟨true, false, true⟩ diagBSD "f.c" 5 "x > 0" condErr () =
      Outcome.ok () ∧
    (requires ⟨false, false, true⟩ diagBSD "f.c" 5 "x > 0" condFalse
      ()).isFailure = true :=
  ⟨((C5_debug_evaluates ⟨true, false, true⟩ diagBSD "f.c" 5 "x > 0" condErr
      ()).1 rfl).1,
   (((C5_debug_evaluates ⟨false, false, true⟩ diagBSD "f.c" 5 "x > 0"
      condFalse ()).2 rfl ()).2 rfl).1⟩

/-- C6: when `NDEBUG` is set, `assert_exception(code, ex)` compiles to
`(void) 0`: for every code fragment and every expected exception kind it
completes normally in the unchanged state and `code` is not executed. -/
theorem C6_ndebug_assert_exception_noop {σ : Type} (cfg : Config)
    (h : cfg.ndebug = true) (file : String) (line : Nat) (code : Code σ)
    (exKind : ExnKind) (exText : String) (s : σ) :
    assert_exception cfg file line code exKind exText s = Outcome.ok s := by
  simp [assert_exception, if_else_debug, h]

/-- Witness for C6 at a concrete input: even a code fragment that raises is
never run — the expansion is a no-op. -/
theorem C6_ndebug_assert_exception_noop_witness :
    assert_exception ⟨true, true, true⟩ "f.c" 9 codeRaisesOOR
      (ExnKind.other "std::out_of_range") "std::out_of_range" () =
      Outcome.ok () :=
  C6_ndebug_assert_exception_noop ⟨true, true, true⟩ rfl "f.c" 9 codeRaisesOOR
    (ExnKind.other "std::out_of_range") "std::out_of_range" ()

/-- C7: for every pair of fragments `A`, `B`, `if_else_debug(A, B)` is `B`
when `NDEBUG` is set and `A` when it is unset; the result is always one of
the two fragments (never neither), the selection is exclusive (never both,
when the fragments differ), and it depends solely on the debug flag — the
`EXDEBUG` and language flags are irrelevant to it. -/
theorem C7_if_else_debug_exclusive {α : Type} (cfg : Config) (a b : α) :
    (cfg.ndebug = true → if_else_debug cfg a b = b) ∧
    (cfg.ndebug = false → if_else_debug cfg a b = a) ∧
    (if_else_debug cfg a b = a ∨ if_else_debug cfg a b = b) ∧
    (a ≠ b → ¬(if_else_debug cfg a b = a ∧ if_else_debug cfg a b = b)) ∧
    (∀ e c, if_else_debug ⟨cfg.ndebug, e, c⟩ a b = if_else_debug cfg a b) := by
  refine ⟨fun h => by simp [if_else_debug, h],
    fun h => by simp [if_else_debug, h], ?_, ?_, fun e c => by
      simp [if_else_debug]⟩
  · unfold if_else_debug
    cases cfg.ndebug <;> simp
  · intro hne ⟨ha, hb⟩
    exact hne (ha ▸ hb)

/-- Witness for C7 at concrete fragments `1` and `2` in both flag states. -/
theorem C7_if_else_debug_exclusive_witness :
    if_else_debug ⟨true, false, true⟩ 1 2 = 2 ∧
    if_else_debug ⟨false, false, true⟩ 1 2 = 1 ∧
    ¬(if_else_debug ⟨true, false, true⟩ 1 2 = 1 ∧
      if_else_debug ⟨true, false, true⟩ 1 2 = 2) :=
  ⟨(C7_if_else_debug_exclusive ⟨true, false, true⟩ 1 2).1 rfl,
   (C7_if_else_debug_exclusive ⟨false, false, true⟩ 1 2).2.1 rfl,
   (C7_if_else_debug_exclusive ⟨true, false, true⟩ 1 2).2.2.2.1 (by decide)⟩

/-- A condition is statically true when every evaluation of it yields `true`
(and never errors), whatever the state. -/
def AlwaysTrue {σ : Type} (c : Cond σ) : Prop :=
  ∀ s, ∃ s', c s = EvalResult.val true s'

/-- C8: for every statically true condition `C`, `requires(C)` and
`ensures(C)` never trigger failure handling — no abort and no thrown
exception — under every combination of the `NDEBUG`, `EXDEBUG` and language
flags. -/
theorem C8_true_condition_never_fails {σ : Type} (cfg : Config)
    (diag : String → Nat → String → String) (file : String) (line : Nat)
    (text : String) (c : Cond σ) (hc : AlwaysTrue c) (s : σ) :
    (requires cfg diag file line text c s).isFailure = false ∧
    (ensures cfg diag file line text c s).isFailure = false := by
  obtain ⟨s', hs'⟩ := hc s
  cases hmode : contractsAssertMode cfg <;> constructor <;>
    simp [requires, ensures, CONTRACTS_ASSERT, hmode, AssertMode.run, hs',
      Outcome.isFailure]

/-- Witness for C8: the constantly-true condition under all four
debug/exception flag combinations (C++). -/
theorem C8_true_condition_never_fails_witness :
    (requires ⟨true, false, true⟩ diagBSD "f.c" 5 "1 == 1" condTrue
      ()).isFailure = false ∧
    (requires ⟨true, true, true⟩ diagBSD "f.c" 5 "1 == 1" condTrue
      ()).isFailure = false ∧
    (requires ⟨false, false, true⟩ diagBSD "f.c" 5 "1 == 1" condTrue
      ()).isFailure = false ∧
    (ensures ⟨false, true, true⟩ diagBSD "f.c" 5 "1 == 1" condTrue
      ()).isFailure = false :=
  ⟨(C8_true_condition_never_fails ⟨true, false, true⟩ diagBSD "f.c" 5 "1 == 1"
      condTrue (fun s => ⟨s, rfl⟩) ()).1,
   (C8_true_condition_never_fails ⟨true, true, true⟩ diagBSD "f.c" 5 "1 == 1"
      condTrue (fun s => ⟨s, rfl⟩) ()).1,
   (C8_true_condition_never_fails ⟨false, false, true⟩ diagBSD "f.c" 5
      "1 == 1" condTrue (fun s => ⟨s, rfl⟩) ()).1,
   (C8_true_condition_never_fails ⟨false, true, true⟩ diagBSD "f.c" 5 "1 == 1"
      condTrue (fun s => ⟨s, rfl⟩) ()).2⟩

/-- C9: one pass over the re-inclusion block (contracts.h lines 171-197)
installs definitions of `if_else_debug` and `CONTRACTS_ASSERT` that depend
only on the flags visible at that inclusion point: the result is the same
whatever definitions an earlier inclusion left behind (no leakage), the
installed `if_else_debug` selects exactly the branch the current debug flag
dictates, and the installed assertion expansion runs exactly as
`CONTRACTS_ASSERT` does under the current flags. -/
theorem C9_reinclusion_independent (cfg : Config) (p1 p2 : Option PPDefs) :
    processReinclusionBlock cfg p1 = processReinclusionBlock cfg p2 ∧
    processReinclusionBlock cfg p1 =
      some { selectsIf := !cfg.ndebug, assertMode := contractsAssertMode cfg } ∧
    (∀ (α : Type) (a b : α) (d : PPDefs),
      processReinclusionBlock cfg p1 = some d →
      d.runIfElseDebug a b = if_else_debug cfg a b) ∧
    (∀ (σ : Type) (diag : String → Nat → String → String) (file : String)
      (line : Nat) (text : String) (c : Cond σ) (s : σ) (d : PPDefs),
      processReinclusionBlock cfg p1 = some d →
      d.assertMode.run diag file line text c s =
        CONTRACTS_ASSERT cfg diag file line text c s) := by
  refine ⟨by simp [processReinclusionBlock], by simp [processReinclusionBlock],
    ?_, ?_⟩
  · intro α a b d hd
    simp [processReinclusionBlock] at hd
    subst hd
    unfold PPDefs.runIfElseDebug if_else_debug
    cases cfg.ndebug <;> simp
  · intro σ diag file line text c s d hd
    simp [processReinclusionBlock] at hd
    subst hd
    rfl

/-- Witness for C9: a debug-mode inclusion after a release-mode one (and
after no inclusion at all) installs the same definitions, which select the
debug branch. -/
theorem C9_reinclusion_independent_witness :
    processReinclusionBlock ⟨false, false, true⟩
      (some { selectsIf := false, assertMode := AssertMode.voidZero }) =
      processReinclusionBlock ⟨false, false, true⟩ none ∧
    processReinclusionBlock ⟨false, false, true⟩
      (some { selectsIf := false, assertMode := AssertMode.voidZero }) =
      some { selectsIf := true, assertMode := AssertMode.stdAssert } ∧
    PPDefs.runIfElseDebug
      { selectsIf := true, assertMode := AssertMode.stdAssert } 1 2 =
      if_else_debug ⟨false, false, true⟩ 1 2 :=
  ⟨(C9_reinclusion_independent ⟨false, false, true⟩
      (some { selectsIf := false, assertMode := AssertMode.voidZero }) none).1,
   (C9_reinclusion_independent ⟨false, false, true⟩
      (some { selectsIf := false, assertMode := AssertMode.voidZero }) none).2.1,
   (C9_reinclusion_independent ⟨false, false, true⟩
      (some { selectsIf := false, assertMode := AssertMode.voidZero })
      none).2.2.1 Nat 1 2
      { selectsIf := true, assertMode := AssertMode.stdAssert } rfl⟩

/-- C10: with debugging active (`NDEBUG` unset), whatever the `EXDEBUG`
flag, both failure outcomes of `assert_exception(code, K)` — `code` raising
nothing, or raising an exception not matching `K` — report and abort via
`__contracts_assert_failed`; an `assert_exception` failure is never raised
as a catchable exception: no outcome of the construct is a thrown
exception. -/
theorem C10_assert_exception_always_aborts {σ : Type} (cfg : Config)
    (h : cfg.ndebug = false) (file : String) (line : Nat) (code : Code σ)
    (exKind : ExnKind) (exText : String) (s : σ) :
    (∀ s', code s = CodeResult.normal s' →
      assert_exception cfg file line code exKind exText s =
        __contracts_assert_failed file line (noExnMessage exText) s') ∧
    (∀ e s', code s = CodeResult.raised e s' →
      exKind.catches e.kind = false →
      assert_exception cfg file line code exKind exText s =
        __contracts_assert_failed file line (unexpectedExnMessage exText) s') ∧
    (∀ (e' : Exn) (s'' : σ),
      assert_exception cfg file line code exKind exText s ≠
        Outcome.thrown e' s'') := by
  refine ⟨fun s' hcode => by
      simp [assert_exception, if_else_debug, h, hcode],
    fun e s' hcode hmatch => by
      simp [assert_exception, if_else_debug, h, hcode, hmatch],
    fun e' s'' => ?_⟩
  unfold assert_exception if_else_debug
  rw [h]
  simp only [Bool.false_eq_true, if_false]
  cases hcode : code s with
  | normal s' => simp [__contracts_assert_failed]
  | raised e s' =>
    cases hmatch : exKind.catches e.kind <;>
      simp [hmatch, __contracts_assert_failed]

/-- Witness for C10 with `EXDEBUG` set: both failure paths of
`assert_exception` abort with the fixed-format message rather than throwing
`ContractViolated`. -/
theorem C10_assert_exception_always_aborts_witness :
    assert_exception ⟨false, true, true⟩ "f.c" 9 codeNormal
      (ExnKind.other "std::out_of_range") "std::out_of_range" () =
      __contracts_assert_failed "f.c" 9 (noExnMessage "std::out_of_range")
        () ∧
    assert_exception ⟨false, true, true⟩ "f.c" 9 codeRaisesOOR
      (ExnKind.other "std::domain_error") "std::domain_error" () =
      __contracts_assert_failed "f.c" 9
        (unexpectedExnMessage "std::domain_error") () ∧
    (∀ (e' : Exn) (s'' : Unit),
      assert_exception ⟨false, true, true⟩ "f.c" 9 codeNormal
        (ExnKind.other "std::out_of_range") "std::out_of_range" () ≠
        Outcome.thrown e' s'') :=
  ⟨(C10_assert_exception_always_aborts ⟨false, true, true⟩ rfl "f.c" 9
      codeNormal (ExnKind.other "std::out_of_range") "std::out_of_range"
      ()).1 () rfl,
   (C10_assert_exception_always_aborts ⟨false, true, true⟩ rfl "f.c" 9
      codeRaisesOOR (ExnKind.other "std::domain_error") "std::domain_error"
      ()).2.1 { kind := ExnKind.other "std::out_of_range", what := "oor" } ()
      rfl (by decide),
   (C10_assert_exception_always_aborts ⟨false, true, true⟩ rfl "f.c" 9
      codeNormal (ExnKind.other "std::out_of_range") "std::out_of_range"
      ()).2.2⟩

end Contracts
